import Mathlib

/-!
# Verification of the mcp-eia scoring and aggregation core

This file gives a shallow embedding, in Lean 4, of the pure scoring and
aggregation routines of the mcp-eia repository:

* the trend classifier and descriptive-statistics helper of src/index.ts
  (getTrend, basicStats);
* the capacity-utilization estimator of src/analysis/capacityAnalyzer.ts
  (CapacityAnalyzer.calculateCapacityUtilization);
* the energy-storage analyzer of src/analysis/energyStorageAnalyzer.ts
  (EnergyStorageAnalyzer: calculateGridCapacityMetrics,
  calculateDemandSupplyMetrics, calculateRenewableMetrics,
  calculateGridStabilityMetrics, calculateEconomicMetrics,
  calculateOpportunityScores, analyzeStorageOpportunity);
* the region-ranking orchestration of the findHighPotentialEnergyStorageAreas
  tool in src/index.ts, with the data fetcher abstracted as a function
  argument returning Except.

Modelling conventions:

* JavaScript numbers are modelled as exact rationals (ℚ).  All inputs of the
  verified properties are finite, and within the finite range the source only
  uses +, -, *, /, comparison, Math.round, Math.abs, Math.min/max and
  toFixed, all of which are exact here.
* Math.sqrt is abstracted as an explicit function argument (sqrtFn : ℚ → ℚ),
  since its exact value is irrational in general and never affects any of the
  verified properties (it is only ever fed into a quantity whose behaviour is
  decided by a zero test on a different value).
* A JavaScript null (and, for schema-coerced fields, a non-finite value) is
  modelled as Option.none.
* The one place where the source can produce a non-finite number from finite
  inputs is the unguarded division priceStdDev / avgPrice in
  calculateEconomicMetrics (NaN or ±Infinity when avgPrice = 0).  That field,
  and the two score fields derived from it, are therefore Option-valued, with
  none standing for a non-finite result.
* Math.round is round-half-toward-+∞ (ECMA-262), i.e. fun q => ⌊q + 1/2⌋;
  toFixed(n) followed by parseFloat rounds the same way at the n-th decimal.
-/

/-- JS Math.round on a finite number: round to nearest, ties toward +∞. -/
def jsRound (q : ℚ) : ℤ := ⌊q + 1/2⌋

/-- JS Number.prototype.toFixed n followed by parseFloat, on a finite number:
round to n decimal places, ties toward +∞. -/
def roundTo (n : ℕ) (q : ℚ) : ℚ := (jsRound (q * 10 ^ n) : ℚ) / 10 ^ n

/-- The clamp Math.min(Math.max(z, 0), 100) applied by calculateOpportunityScores
to every (already rounded, hence integral) score. -/
def clampScore (z : ℤ) : ℤ := min (max z 0) 100

/-- JS Math.max spread over a nonempty list (every call site guards emptiness). -/
def jsMaxList : List ℚ → ℚ
  | [] => 0
  | x :: xs => xs.foldl max x

/-- JS Math.min spread over a nonempty list (every call site guards emptiness). -/
def jsMinList : List ℚ → ℚ
  | [] => 0
  | x :: xs => xs.foldl min x

/-- Record shape of /v2/electricity/operating-generator-capacity rows after the
CapacityByFuelDataSchema zod validation (src/validation/electricity.schemas.ts). -/
structure CapacityByFuelData where
  period : String
  stateid : String
  energy_source_code : String
  netSummerCapacityMW : Option ℚ
  netWinterCapacityMW : Option ℚ
deriving DecidableEq, Repr

/-- Record shape of /v2/electricity/electric-power-operational-data rows after
the GenerationDataSchema zod validation. -/
structure GenerationData where
  period : String
  stateid : Option String
  fuelType : Option String
  fueltype : Option String
  fueltypeid : Option String
  fuelTypeDescription : Option String
  generation : Option ℚ
  generationUnits : Option String
  totalConsumption : Option ℚ
  totalConsumptionUnits : Option String
deriving DecidableEq, Repr

/-- Helper to build a GenerationData record with only the fields the analyzed
code reads (the rest are absent/optional). -/
def mkGenerationData (period : String) (generation totalConsumption : Option ℚ) :
    GenerationData :=
  ⟨period, none, none, none, none, none, generation, none, totalConsumption, none⟩

/-- Record shape of /v2/electricity/retail-sales rows after the
RetailPriceDataSchema zod validation. -/
structure RetailPriceData where
  period : String
  stateid : String
  sectorid : String
  price : Option ℚ
  sales : Option ℚ
deriving DecidableEq, Repr

/-- Record shape of /v2/electricity/rto/region-data rows after the
RTODemandDataSchema zod validation.  The schema preprocessor coerces any
non-finite value to null, so value = some q exactly when the stored value is a
finite number. -/
structure RTODemandData where
  period : String
  respondent : String
  type : String
  value : Option ℚ
  valueUnits : Option String
deriving DecidableEq, Repr

/-- Helper to build an RTODemandData record with only the value field relevant
to the analyzed code. -/
def mkDemandData (period : String) (value : Option ℚ) : RTODemandData :=
  ⟨period, "RTO", "D", value, none⟩

/-- Output of CapacityAnalyzer.calculateRegionalMetrics
(src/analysis/capacityAnalyzer.ts), consumed by calculateCapacityUtilization. -/
structure RegionalCapacityMetrics where
  region : String
  latestPeriod : String
  totalSummerCapacityMW : ℚ
  totalWinterCapacityMW : ℚ
deriving DecidableEq, Repr

/-- Result record of CapacityAnalyzer.calculateCapacityUtilization.  utilization
is Option-valued because the source returns null both under its guard
conditions and when the computed ratio is falsy. -/
structure UtilizationResult where
  utilization : Option ℚ
  totalGenerationGWh : ℚ
  totalConsumptionGWh : ℚ
deriving DecidableEq, Repr

/-- src/types/energyStorage.types.ts: GridCapacityMetrics.  All four fields go
through Math.round in the source, hence are integral. -/
structure GridCapacityMetrics where
  totalCapacityMW : ℤ
  renewableCapacityMW : ℤ
  fossilCapacityMW : ℤ
  renewablePenetration : ℤ
deriving DecidableEq, Repr

/-- src/types/energyStorage.types.ts: DemandSupplyMetrics. -/
structure DemandSupplyMetrics where
  averageDemandMW : ℤ
  peakDemandMW : ℤ
  minimumDemandMW : ℤ
  loadFactor : ℚ
  demandVariabilityIndex : ℚ
deriving DecidableEq, Repr

/-- src/types/energyStorage.types.ts: RenewableIntegrationMetrics. -/
structure RenewableIntegrationMetrics where
  solarCapacityMW : ℤ
  windCapacityMW : ℤ
  estimatedCurtailmentMWh : ℤ
  renewableVariabilityIndex : ℚ
  duckCurveSeverity : ℚ
deriving DecidableEq, Repr

/-- src/types/energyStorage.types.ts: GridStabilityMetrics. -/
structure GridStabilityMetrics where
  maxHourlyRampMW : ℤ
  rampingFrequency : ℚ
  frequencyRegulationNeed : ℤ
  spinningReserveRequirement : ℤ
deriving DecidableEq, Repr

/-- src/types/energyStorage.types.ts: EconomicMetrics.  priceVolatilityIndex is
Option-valued: calculateEconomicMetrics divides by the average price without a
zero guard, so the stored number is non-finite (modelled none) when the average
price is 0. -/
structure EconomicMetrics where
  averageRetailPriceCentsPerKWh : ℚ
  priceVolatilityIndex : Option ℚ
  peakOffPeakSpread : ℤ
  estimatedArbitrageRevenue : ℤ
deriving DecidableEq, Repr

/-- src/types/energyStorage.types.ts: StorageOpportunityScore.  economicScore
and overall inherit the possible non-finiteness of priceVolatilityIndex and are
Option-valued; the other three are always finite integers. -/
structure StorageOpportunityScore where
  overall : Option ℤ
  peakShavingScore : ℤ
  renewableIntegrationScore : ℤ
  gridServicesScore : ℤ
  economicScore : Option ℤ
deriving DecidableEq, Repr

/-- src/types/energyStorage.types.ts: EnergyStorageOpportunityMetrics.  The
analysisDate (new Date().toISOString() in the source) is passed in explicitly
as the impure clock input. -/
structure EnergyStorageOpportunityMetrics where
  region : String
  analysisDate : String
  gridCapacity : GridCapacityMetrics
  demandSupplyMetrics : DemandSupplyMetrics
  renewableIntegration : RenewableIntegrationMetrics
  gridStability : GridStabilityMetrics
  economicOpportunity : EconomicMetrics
  storageOpportunityScore : StorageOpportunityScore
deriving DecidableEq, Repr

/-- Trend values returned by getTrend in src/index.ts. -/
inductive Trend where
  | up
  | down
  | flat
deriving DecidableEq, Repr

/-- getTrend (src/index.ts, lines 286-295): classify (latest, previous) into
up/down/flat.  Non-number inputs coerce to 0; the deadband is 1% of |previous|
when that is positive, and the absolute fallback 1 otherwise. -/
def getTrend (latest previous : Option ℚ) : Trend :=
  let l := latest.getD 0
  let p := previous.getD 0
  let absPrev := |p|
  let delta := l - p
  let threshold := if absPrev > 0 then absPrev * 0.01 else 1
  if delta > threshold then Trend.up
  else if delta < -threshold then Trend.down
  else Trend.flat

/-- The trend classifier as §4.1 of the spec words it: threshold =
max(|previous| * 0.01, 1).  Kept separate so it can be compared with the source
function getTrend. -/
def specClassifyTrend (latest previous : Option ℚ) : Trend :=
  let l := latest.getD 0
  let p := previous.getD 0
  let delta := l - p
  let threshold := max (|p| * 0.01) 1
  if delta > threshold then Trend.up
  else if delta < -threshold then Trend.down
  else Trend.flat

/-- Result record of basicStats in src/index.ts. -/
structure BasicStats where
  avg : ℚ
  stddev : ℚ
  cov : ℚ
deriving DecidableEq, Repr

/-- basicStats (src/index.ts, lines 297-304): mean, standard deviation and
coefficient of variation of a numeric sequence; the all-zero record on empty
input, and cov = 0 when the average is 0. -/
def basicStats (sqrtFn : ℚ → ℚ) (values : List ℚ) : BasicStats :=
  if values.length = 0 then ⟨0, 0, 0⟩
  else
    let avg := values.sum / (values.length : ℚ)
    let variance := (values.map (fun v => (v - avg) ^ 2)).sum / (values.length : ℚ)
    let stddev := sqrtFn variance
    let cov := if avg ≠ 0 then stddev / avg else 0
    ⟨avg, stddev, cov⟩

/-- The records of the latest generation period: generationData[0]?.period and
the filter to records of that period (CapacityAnalyzer.calculateCapacityUtilization). -/
def latestGenerationData (generationData : List GenerationData) : List GenerationData :=
  match generationData.head? with
  | none => []
  | some g0 => generationData.filter (fun d => d.period == g0.period)

/-- Sum of latest-period generation MWh, nulls coerced to 0. -/
def totalLatestGenerationMWh (generationData : List GenerationData) : ℚ :=
  ((latestGenerationData generationData).map (fun g => g.generation.getD 0)).sum

/-- Sum of latest-period total-consumption MWh, nulls coerced to 0. -/
def totalLatestConsumptionMWh (generationData : List GenerationData) : ℚ :=
  ((latestGenerationData generationData).map (fun g => g.totalConsumption.getD 0)).sum

/-- Average hours in a month, 365.25 / 12 * 24 (capacityAnalyzer.ts line 58). -/
def totalHoursInMonth : ℚ := 30.4375 * 24

/-- CapacityAnalyzer.calculateCapacityUtilization
(src/analysis/capacityAnalyzer.ts, lines 26-74).  Guard: empty generation data
or non-positive summer capacity returns the all-null/zero record.  Otherwise
the ratio of latest-period generation to theoretical monthly potential,
rounded to 4 decimals — except that the source tests JS truthiness of the
ratio, so a zero ratio also comes back null. -/
def calculateCapacityUtilization (capacityMetrics : RegionalCapacityMetrics)
    (generationData : List GenerationData) : UtilizationResult :=
  if generationData.length = 0 ∨ capacityMetrics.totalSummerCapacityMW ≤ 0 then
    ⟨none, 0, 0⟩
  else
    let totalGenerationMWh := totalLatestGenerationMWh generationData
    let totalConsumptionMWh := totalLatestConsumptionMWh generationData
    let potentialGenerationMWh := capacityMetrics.totalSummerCapacityMW * totalHoursInMonth
    let utilization : Option ℚ :=
      if 0 < potentialGenerationMWh then some (totalGenerationMWh / potentialGenerationMWh)
      else none
    { utilization :=
        match utilization with
        | some u => if u = 0 then none else some (roundTo 4 u)
        | none => none
      totalGenerationGWh := roundTo 3 (totalGenerationMWh / 1000)
      totalConsumptionGWh := roundTo 3 (totalConsumptionMWh / 1000) }

/-- Renewable fuel codes (energyStorageAnalyzer.ts line 146). -/
def renewableSources : List String := ["SUN", "WND", "HYD", "GEO", "BIO", "WAS"]

/-- Fossil fuel codes (energyStorageAnalyzer.ts line 147). -/
def fossilSources : List String := ["NG", "COL", "PET", "OTH"]

/-- One step of the accumulation loop of calculateGridCapacityMetrics over a
(total, renewable, fossil) accumulator. -/
def gridCapacityStep (acc : ℚ × ℚ × ℚ) (record : CapacityByFuelData) : ℚ × ℚ × ℚ :=
  let capacity := record.netSummerCapacityMW.getD 0
  ( acc.1 + capacity,
    (if renewableSources.contains record.energy_source_code then acc.2.1 + capacity
     else acc.2.1),
    (if renewableSources.contains record.energy_source_code then acc.2.2
     else if fossilSources.contains record.energy_source_code then acc.2.2 + capacity
     else acc.2.2) )

/-- EnergyStorageAnalyzer.calculateGridCapacityMetrics (energyStorageAnalyzer.ts,
lines 145-171): accumulate total/renewable/fossil summer capacity and derive a
rounded renewable-penetration percentage (0 when total capacity is not
positive). -/
def calculateGridCapacityMetrics (capacityData : List CapacityByFuelData) :
    GridCapacityMetrics :=
  let acc := capacityData.foldl gridCapacityStep (0, 0, 0)
  let totalCapacity := acc.1
  let renewableCapacity := acc.2.1
  let fossilCapacity := acc.2.2
  { totalCapacityMW := jsRound totalCapacity
    renewableCapacityMW := jsRound renewableCapacity
    fossilCapacityMW := jsRound fossilCapacity
    renewablePenetration :=
      if totalCapacity > 0 then jsRound (renewableCapacity / totalCapacity * 100) else 0 }

/-- Total summer capacity over all records, nulls as 0 (reference form of the
loop accumulator used to state theorems). -/
def capTotal (capacityData : List CapacityByFuelData) : ℚ :=
  (capacityData.map (fun r => r.netSummerCapacityMW.getD 0)).sum

/-- Summer capacity restricted to renewable fuel codes. -/
def capRenewable (capacityData : List CapacityByFuelData) : ℚ :=
  ((capacityData.filter (fun r => renewableSources.contains r.energy_source_code)).map
    (fun r => r.netSummerCapacityMW.getD 0)).sum

/-- Summer capacity restricted to fossil fuel codes (that are not renewable). -/
def capFossil (capacityData : List CapacityByFuelData) : ℚ :=
  ((capacityData.filter (fun r =>
      !renewableSources.contains r.energy_source_code &&
        fossilSources.contains r.energy_source_code)).map
    (fun r => r.netSummerCapacityMW.getD 0)).sum

/-- The renewable-penetration percentage as C9 words it (no rounding),
kept separate for comparison with the source computation. -/
def specRenewablePenetration (capacityData : List CapacityByFuelData) : ℚ :=
  if capTotal capacityData > 0 then
    capRenewable capacityData / capTotal capacityData * 100
  else 0

/-- The finite numeric series extracted from hourly demand records: a value
survives exactly when it is a finite number (nulls and non-finite inputs were
already coerced to null by the schema). -/
def demandSeries (demandData : List RTODemandData) : List ℚ :=
  demandData.filterMap (fun d => d.value)

/-- The generation-based fallback branch of calculateDemandSupplyMetrics
(energyStorageAnalyzer.ts lines 177-190 and 197-209, two textually identical
computations): average generation with nulls as 0 and a length-or-1
denominator, scaled peak/min estimates, and fixed typical values for load
factor and variability. -/
def generationFallbackDS (generationData : List GenerationData) : DemandSupplyMetrics :=
  let totalGen := (generationData.map (fun g => g.generation.getD 0)).sum
  let denom : ℚ := if generationData.length = 0 then 1 else (generationData.length : ℚ)
  let avgGen := totalGen / denom
  { averageDemandMW := jsRound avgGen
    peakDemandMW := jsRound (avgGen * 1.2)
    minimumDemandMW := jsRound (avgGen * 0.6)
    loadFactor := 0.7
    demandVariabilityIndex := 0.15 }

/-- EnergyStorageAnalyzer.calculateDemandSupplyMetrics (energyStorageAnalyzer.ts,
lines 173-228). -/
def calculateDemandSupplyMetrics (sqrtFn : ℚ → ℚ) (demandData : List RTODemandData)
    (generationData : List GenerationData) : DemandSupplyMetrics :=
  if demandData.length = 0 then generationFallbackDS generationData
  else
    let series := demandSeries demandData
    if series.length = 0 then generationFallbackDS generationData
    else
      let avgDemand := series.sum / (series.length : ℚ)
      let peakDemand := jsMaxList series
      let minDemand := jsMinList series
      let variance := (series.map (fun d => (d - avgDemand) ^ 2)).sum / (series.length : ℚ)
      let stdDev := sqrtFn variance
      let coefficientOfVariation := if avgDemand ≠ 0 then stdDev / avgDemand else 0
      { averageDemandMW := jsRound avgDemand
        peakDemandMW := jsRound peakDemand
        minimumDemandMW := jsRound minDemand
        loadFactor := roundTo 3 (avgDemand / (if peakDemand = 0 then 1 else peakDemand))
        demandVariabilityIndex := roundTo 3 coefficientOfVariation }

/-- EnergyStorageAnalyzer.calculateRenewableMetrics (energyStorageAnalyzer.ts,
lines 230-261).  The generationData argument is accepted but unused, as in the
source. -/
def calculateRenewableMetrics (capacityData : List CapacityByFuelData)
    (generationData : List GenerationData) : RenewableIntegrationMetrics :=
  let solarCapacity :=
    ((capacityData.filter (fun d => d.energy_source_code == "SUN")).map
      (fun d => d.netSummerCapacityMW.getD 0)).sum
  let windCapacity :=
    ((capacityData.filter (fun d => d.energy_source_code == "WND")).map
      (fun d => d.netSummerCapacityMW.getD 0)).sum
  let totalRenewableCapacity := solarCapacity + windCapacity
  let estimatedCurtailmentRate : ℚ := 0.03
  let hoursPerYear : ℚ := 8760
  let capacityFactor : ℚ := 0.35
  let estimatedCurtailment :=
    totalRenewableCapacity * hoursPerYear * capacityFactor * estimatedCurtailmentRate
  let solarPenetration := solarCapacity / (solarCapacity + windCapacity + 1)
  let duckCurveSeverity := min (solarPenetration * 2) 1
  { solarCapacityMW := jsRound solarCapacity
    windCapacityMW := jsRound windCapacity
    estimatedCurtailmentMWh := jsRound estimatedCurtailment
    renewableVariabilityIndex := roundTo 3 (0.4 + solarPenetration * 0.3)
    duckCurveSeverity := roundTo 3 duckCurveSeverity }

/-- The fixed fallback constants of calculateGridStabilityMetrics
(energyStorageAnalyzer.ts lines 270-277), used when fewer than 2 numeric values
remain in the demand series. -/
def gridStabilityFallback : GridStabilityMetrics :=
  { maxHourlyRampMW := 500
    rampingFrequency := 4
    frequencyRegulationNeed := 100
    spinningReserveRequirement := 300 }

/-- EnergyStorageAnalyzer.calculateGridStabilityMetrics (energyStorageAnalyzer.ts,
lines 263-304). -/
def calculateGridStabilityMetrics (demandData : List RTODemandData) :
    GridStabilityMetrics :=
  let series := demandSeries demandData
  if series.length < 2 then gridStabilityFallback
  else
    let ramps := (series.zip series.tail).map (fun p => |p.2 - p.1|)
    let maxRamp := if ramps.length = 0 then 0 else jsMaxList ramps
    let avgDemand := series.sum / (series.length : ℚ)
    let significantRampThreshold := avgDemand * 0.05
    let significantRamps := (ramps.filter (fun r => r > significantRampThreshold)).length
    let rampingFrequency := ((significantRamps : ℚ) / (series.length : ℚ)) * 24
    { maxHourlyRampMW := jsRound maxRamp
      rampingFrequency := roundTo 1 rampingFrequency
      frequencyRegulationNeed := jsRound (avgDemand * 0.01)
      spinningReserveRequirement := jsRound (maxRamp * 0.5) }

/-- EnergyStorageAnalyzer.calculateEconomicMetrics (energyStorageAnalyzer.ts,
lines 306-344).  The demandSupply argument is accepted but unused, as in the
source.  The division priceStdDev / avgPrice has no zero guard in the source:
when the average price is 0 it yields a non-finite number (modelled none),
which toFixed/parseFloat preserve. -/
def calculateEconomicMetrics (sqrtFn : ℚ → ℚ) (priceData : List RetailPriceData)
    (demandSupply : DemandSupplyMetrics) : EconomicMetrics :=
  if priceData.length = 0 then
    { averageRetailPriceCentsPerKWh := 10
      priceVolatilityIndex := some 0.15
      peakOffPeakSpread := 50
      estimatedArbitrageRevenue := 50000 }
  else
    let prices := priceData.map (fun p => p.price.getD 0)
    let avgPrice := prices.sum / (prices.length : ℚ)
    let priceVariance := (prices.map (fun p => (p - avgPrice) ^ 2)).sum / (prices.length : ℚ)
    let priceStdDev := sqrtFn priceVariance
    let priceVolatility : Option ℚ :=
      if avgPrice = 0 then none else some (priceStdDev / avgPrice)
    let peakOffPeakSpread := avgPrice * 0.5 * 10
    let storageHours : ℚ := 4
    let cyclesPerYear : ℚ := 300
    let efficiency : ℚ := 0.85
    let arbitrageRevenue := peakOffPeakSpread * storageHours * cyclesPerYear * efficiency
    { averageRetailPriceCentsPerKWh := roundTo 2 avgPrice
      priceVolatilityIndex := priceVolatility.map (roundTo 3)
      peakOffPeakSpread := jsRound peakOffPeakSpread
      estimatedArbitrageRevenue := jsRound arbitrageRevenue }

/-- The peak-shaving sub-score before clamping (energyStorageAnalyzer.ts lines
356-359): Math.round of (1 - loadFactor) * 50 + demandVariabilityIndex * 200. -/
def peakShavingRaw (demandSupply : DemandSupplyMetrics) : ℤ :=
  jsRound ((1 - demandSupply.loadFactor) * 50 + demandSupply.demandVariabilityIndex * 200)

/-- The renewable-integration sub-score before clamping (lines 363-367). -/
def renewableRaw (gridCapacity : GridCapacityMetrics)
    (renewable : RenewableIntegrationMetrics) : ℤ :=
  jsRound ((gridCapacity.renewablePenetration : ℚ) * 0.5 +
    renewable.duckCurveSeverity * 30 +
    min ((renewable.estimatedCurtailmentMWh : ℚ) / 10000) 1 * 20)

/-- The grid-services sub-score before clamping (lines 371-375). -/
def gridServicesRaw (stability : GridStabilityMetrics) : ℤ :=
  jsRound (min ((stability.maxHourlyRampMW : ℚ) / 1000) 1 * 40 +
    min (stability.rampingFrequency / 10) 1 * 30 +
    min ((stability.frequencyRegulationNeed : ℚ) / 500) 1 * 30)

/-- The economic sub-score before clamping (lines 379-383), for a finite
priceVolatilityIndex value vol. -/
def economicRaw (economic : EconomicMetrics) (vol : ℚ) : ℤ :=
  jsRound (min (economic.averageRetailPriceCentsPerKWh / 20) 1 * 30 +
    vol * 100 +
    min ((economic.estimatedArbitrageRevenue : ℚ) / 100000) 1 * 40)

/-- EnergyStorageAnalyzer.calculateOpportunityScores (energyStorageAnalyzer.ts,
lines 346-400).  The overall score is the Math.round of the weighted sum of the
rounded but NOT yet clamped sub-scores; clamping to [0, 100] happens only on
the returned record.  A non-finite priceVolatilityIndex (none) propagates
through the economic and overall scores. -/
def calculateOpportunityScores (gridCapacity : GridCapacityMetrics)
    (demandSupply : DemandSupplyMetrics) (renewable : RenewableIntegrationMetrics)
    (stability : GridStabilityMetrics) (economic : EconomicMetrics) :
    StorageOpportunityScore :=
  let peakShavingScore := peakShavingRaw demandSupply
  let renewableScore := renewableRaw gridCapacity renewable
  let gridServicesScore := gridServicesRaw stability
  let economicScore : Option ℤ :=
    economic.priceVolatilityIndex.map (fun vol => economicRaw economic vol)
  let overallScore : Option ℤ :=
    economicScore.map (fun es : ℤ =>
      jsRound ((peakShavingScore : ℚ) * 0.25 + (renewableScore : ℚ) * 0.35 +
        (gridServicesScore : ℚ) * 0.20 + (es : ℚ) * 0.20))
  { overall := overallScore.map clampScore
    peakShavingScore := clampScore peakShavingScore
    renewableIntegrationScore := clampScore renewableScore
    gridServicesScore := clampScore gridServicesScore
    economicScore := economicScore.map clampScore }

/-- EnergyStorageAnalyzer.analyzeStorageOpportunity (energyStorageAnalyzer.ts,
lines 109-143), with the clock reading passed in as analysisDate. -/
def analyzeStorageOpportunity (sqrtFn : ℚ → ℚ) (analysisDate : String)
    (region : String) (capacityData : List CapacityByFuelData)
    (demandData : List RTODemandData) (generationData : List GenerationData)
    (priceData : List RetailPriceData) : EnergyStorageOpportunityMetrics :=
  let gridCapacity := calculateGridCapacityMetrics capacityData
  let demandSupply := calculateDemandSupplyMetrics sqrtFn demandData generationData
  let renewableIntegration := calculateRenewableMetrics capacityData generationData
  let gridStability := calculateGridStabilityMetrics demandData
  let economicOpportunity := calculateEconomicMetrics sqrtFn priceData demandSupply
  let storageOpportunityScore := calculateOpportunityScores gridCapacity demandSupply
    renewableIntegration gridStability economicOpportunity
  { region := region
    analysisDate := analysisDate
    gridCapacity := gridCapacity
    demandSupplyMetrics := demandSupply
    renewableIntegration := renewableIntegration
    gridStability := gridStability
    economicOpportunity := economicOpportunity
    storageOpportunityScore := storageOpportunityScore }

/-- src/types/energyStorage.types.ts: RegionalAnalysisResult — the per-region
outcome inside the findHighPotentialEnergyStorageAreas tool: either metrics or
an error string is present. -/
structure RegionalAnalysisResult where
  region : String
  metrics : Option EnergyStorageOpportunityMetrics
  error : Option String
deriving DecidableEq, Repr

/-- The bundle of per-region datasets fetched by the tool (capacity,
generation, price, optional hourly demand). -/
structure FetchedRegionData where
  capacityData : List CapacityByFuelData
  generationData : List GenerationData
  priceData : List RetailPriceData
  demandData : List RTODemandData
deriving DecidableEq, Repr

/-- The per-region body of findHighPotentialEnergyStorageAreas (src/index.ts,
lines 157-199): a fetch failure is caught and recorded as {region, error}; an
empty capacity dataset is recorded as the fixed error string; otherwise the
analyzer runs.  When includeHourlyAnalysis is false the hourly fetch is
replaced by the empty list, as in the source. -/
def analyzeRegion (sqrtFn : ℚ → ℚ) (now : String) (includeHourly : Bool)
    (fetcher : String → Except String FetchedRegionData) (region : String) :
    RegionalAnalysisResult :=
  match fetcher region with
  | Except.error e => ⟨region, none, some e⟩
  | Except.ok d =>
    if d.capacityData.length = 0 then ⟨region, none, some "No capacity data found"⟩
    else
      ⟨region,
        some (analyzeStorageOpportunity sqrtFn now region d.capacityData
          (if includeHourly then d.demandData else []) d.generationData d.priceData),
        none⟩

/-- The sort key of the ranking comparator: b.metrics?.storageOpportunityScore
.overall ?? 0.  An absent metrics object yields 0 via the nullish coalescing; a
present metrics object with a non-finite overall stays non-finite (none). -/
def overallSortKey (r : RegionalAnalysisResult) : Option ℤ :=
  match r.metrics with
  | none => some 0
  | some m => m.storageOpportunityScore.overall

/-- Whether a may be placed before b by the ranking sort: the comparator
(a, b) => keyB - keyA is non-positive.  A non-finite comparator value is
treated as 0 by the ECMA-262 sort, i.e. as equality. -/
def rankLe (a b : RegionalAnalysisResult) : Bool :=
  match overallSortKey a, overallSortKey b with
  | some ka, some kb => decide (kb ≤ ka)
  | _, _ => true

/-- Insert into a sorted list, keeping the inserted element before the first
element it may precede (stable for the insertion order used below). -/
def insertRanked (le : RegionalAnalysisResult → RegionalAnalysisResult → Bool)
    (x : RegionalAnalysisResult) : List RegionalAnalysisResult → List RegionalAnalysisResult
  | [] => [x]
  | y :: ys => if le x y then x :: y :: ys else y :: insertRanked le x ys

/-- Stable insertion sort modelling Array.prototype.sort with the ranking
comparator (stable per ECMA-262). -/
def sortRanked (le : RegionalAnalysisResult → RegionalAnalysisResult → Bool) :
    List RegionalAnalysisResult → List RegionalAnalysisResult
  | [] => []
  | x :: xs => insertRanked le x (sortRanked le xs)

/-- identifyPrimaryDriver (src/index.ts, lines 249-260): the reduce keeps the
current driver only on a strictly greater score; any comparison against a
non-finite score is false, keeping the previous driver. -/
def identifyPrimaryDriver (scores : StorageOpportunityScore) : String :=
  let drivers : List (String × Option ℤ) :=
    [("Peak Shaving", some scores.peakShavingScore),
     ("Renewable Integration", some scores.renewableIntegrationScore),
     ("Grid Services", some scores.gridServicesScore),
     ("Economic Arbitrage", scores.economicScore)]
  let gt : Option ℤ → Option ℤ → Bool := fun a b =>
    match a, b with
    | some x, some y => decide (y < x)
    | _, _ => false
  match drivers with
  | [] => ""
  | d :: rest =>
    (rest.foldl (fun prev current => if gt current.2 prev.2 then current else prev) d).1

/-- One entry of summary.topOpportunities. -/
structure TopOpportunity where
  region : String
  overallScore : Option ℤ
  primaryDriver : String
deriving DecidableEq, Repr

/-- The serialized result shape of findHighPotentialEnergyStorageAreas. -/
structure RankOutput where
  regionsAnalyzed : ℕ
  successfulAnalyses : ℕ
  topOpportunities : List TopOpportunity
  detailedResults : List EnergyStorageOpportunityMetrics
  failedRegions : List RegionalAnalysisResult
deriving DecidableEq, Repr

/-- The batch orchestration of findHighPotentialEnergyStorageAreas
(src/index.ts, lines 156-235): analyze every region independently, split
successes from failures, sort successes descending by overall score, and build
the summary.  The function is total: a per-region failure is data, never an
exception. -/
def rankRegions (sqrtFn : ℚ → ℚ) (now : String) (regions : List String)
    (includeHourly : Bool) (fetcher : String → Except String FetchedRegionData) :
    RankOutput :=
  let results := regions.map (analyzeRegion sqrtFn now includeHourly fetcher)
  let successfulAnalyses := results.filter (fun r => r.metrics.isSome)
  let failedAnalyses := results.filter (fun r => r.error.isSome)
  let sortedResults := sortRanked rankLe successfulAnalyses
  { regionsAnalyzed := regions.length
    successfulAnalyses := successfulAnalyses.length
    topOpportunities := (sortedResults.take 3).map (fun r =>
      { region := r.region
        overallScore := overallSortKey r
        primaryDriver :=
          match r.metrics with
          | some m => identifyPrimaryDriver m.storageOpportunityScore
          | none => "" })
    detailedResults := sortedResults.filterMap (fun r => r.metrics)
    failedRegions := failedAnalyses }

/-- A concrete stand-in for Math.sqrt used by concrete witnesses; the verified
properties hold for every sqrtFn, so any choice will do. -/
def sqrtW : ℚ → ℚ := fun _ => 0

lemma clampScore_bounds (z : ℤ) : 0 ≤ clampScore z ∧ clampScore z ≤ 100 := by
  unfold clampScore
  constructor
  · exact le_min (le_max_right z 0) (by norm_num)
  · exact min_le_right _ _

/-- C1.  For arbitrary input metrics with a finite priceVolatilityIndex (in
particular all non-negative finite inputs), every sub-score and the overall
score produced by calculateOpportunityScores lies within [0, 100] inclusive. -/
theorem claim_scoreClamped (gc : GridCapacityMetrics) (ds : DemandSupplyMetrics)
    (rn : RenewableIntegrationMetrics) (st : GridStabilityMetrics)
    (ec : EconomicMetrics) (vol : ℚ) (hvol : ec.priceVolatilityIndex = some vol) :
    let S := calculateOpportunityScores gc ds rn st ec
    (0 ≤ S.peakShavingScore ∧ S.peakShavingScore ≤ 100) ∧
    (0 ≤ S.renewableIntegrationScore ∧ S.renewableIntegrationScore ≤ 100) ∧
    (0 ≤ S.gridServicesScore ∧ S.gridServicesScore ≤ 100) ∧
    (∃ e, S.economicScore = some e ∧ 0 ≤ e ∧ e ≤ 100) ∧
    (∃ o, S.overall = some o ∧ 0 ≤ o ∧ o ≤ 100) := by
  intro S
  have hS : S = calculateOpportunityScores gc ds rn st ec := rfl
  unfold calculateOpportunityScores at hS
  rw [hvol] at hS
  simp only [Option.map_some'] at hS
  refine ⟨?_, ?_, ?_, ?_, ?_⟩
  · rw [hS]; exact clampScore_bounds _
  · rw [hS]; exact clampScore_bounds _
  · rw [hS]; exact clampScore_bounds _
  · exact ⟨_, by rw [hS], clampScore_bounds _⟩
  · exact ⟨_, by rw [hS], clampScore_bounds _⟩

/-- Witness for C1 at a concrete, adversarially large input
(estimatedCurtailmentMWh = 10^9). -/
theorem claim_scoreClamped_witness :
    let S := calculateOpportunityScores ⟨20000, 8000, 12000, 40⟩
      ⟨50000, 60000, 30000, 7/10, 3/20⟩ ⟨8000, 0, 1000000000, 7/10, 1⟩
      ⟨500, 4, 100, 300⟩ ⟨10, some (3/20), 50, 50000⟩
    (0 ≤ S.peakShavingScore ∧ S.peakShavingScore ≤ 100) ∧
    (0 ≤ S.renewableIntegrationScore ∧ S.renewableIntegrationScore ≤ 100) ∧
    (0 ≤ S.gridServicesScore ∧ S.gridServicesScore ≤ 100) ∧
    (∃ e, S.economicScore = some e ∧ 0 ≤ e ∧ e ≤ 100) ∧
    (∃ o, S.overall = some o ∧ 0 ≤ o ∧ o ≤ 100) :=
  claim_scoreClamped _ _ _ _ _ (3/20) rfl

/-- Counterexample to C2: at input metrics whose renewable-integration formula
exceeds 100 before clamping, the overall score (83) is computed from the
UNCLAMPED sub-scores, and differs from every reading of a weighted combination
of the four clamped sub-scores (47.5, or 48 after rounding). -/
theorem claim_overallWeights_cex :
    calculateOpportunityScores ⟨0, 0, 0, 400⟩ ⟨0, 0, 0, 0, 0⟩
      ⟨0, 0, 0, 0, 0⟩ ⟨0, 0, 0, 0⟩ ⟨0, some 0, 0, 0⟩ =
      ⟨some 83, 50, 100, 0, some 0⟩ ∧
    min (max ((50 : ℚ) * 0.25 + 100 * 0.35 + 0 * 0.20 + 0 * 0.20) 0) 100 = 47.5 ∧
    (83 : ℚ) ≠ 47.5 ∧
    clampScore (jsRound ((50 : ℚ) * 0.25 + 100 * 0.35 + 0 * 0.20 + 0 * 0.20)) = 48 ∧
    (83 : ℤ) ≠ 48 := by
  refine ⟨?_, ?_, by norm_num, ?_, by norm_num⟩
  · norm_num [calculateOpportunityScores, peakShavingRaw, renewableRaw, gridServicesRaw,
      economicRaw, jsRound, clampScore, min_def, max_def,
      StorageOpportunityScore.mk.injEq]
  · norm_num [min_def, max_def]
  · norm_num [clampScore, jsRound, min_def, max_def]

/-- C2 as amended: the overall score is the weighted combination, with weights
0.25 / 0.35 / 0.20 / 0.20, of the four rounded but UNCLAMPED sub-scores,
rounded and then clamped to [0, 100]; the weights sum to 1 and renewable
integration carries the highest weight. -/
theorem claim_overallWeights_amended (gc : GridCapacityMetrics)
    (ds : DemandSupplyMetrics) (rn : RenewableIntegrationMetrics)
    (st : GridStabilityMetrics) (ec : EconomicMetrics) (vol : ℚ)
    (hvol : ec.priceVolatilityIndex = some vol) :
    (calculateOpportunityScores gc ds rn st ec).overall =
      some (clampScore (jsRound ((peakShavingRaw ds : ℚ) * 0.25 +
        (renewableRaw gc rn : ℚ) * 0.35 + (gridServicesRaw st : ℚ) * 0.20 +
        (economicRaw ec vol : ℚ) * 0.20))) ∧
    (0.25 + 0.35 + 0.20 + 0.20 : ℚ) = 1 ∧
    (0.25 : ℚ) < 0.35 ∧ (0.20 : ℚ) < 0.35 := by
  refine ⟨?_, by norm_num, by norm_num, by norm_num⟩
  unfold calculateOpportunityScores
  rw [hvol]
  rfl

/-- Witness for the amended C2 at a concrete input. -/
theorem claim_overallWeights_amended_witness :
    (calculateOpportunityScores ⟨20000, 8000, 12000, 40⟩
        ⟨50000, 60000, 30000, 7/10, 3/20⟩ ⟨8000, 0, 735840, 7/10, 1⟩
        ⟨500, 4, 100, 300⟩ ⟨10, some (3/20), 50, 50000⟩).overall =
      some (clampScore (jsRound
        ((peakShavingRaw ⟨50000, 60000, 30000, 7/10, 3/20⟩ : ℚ) * 0.25 +
        (renewableRaw ⟨20000, 8000, 12000, 40⟩ ⟨8000, 0, 735840, 7/10, 1⟩ : ℚ) * 0.35 +
        (gridServicesRaw ⟨500, 4, 100, 300⟩ : ℚ) * 0.20 +
        (economicRaw ⟨10, some (3/20), 50, 50000⟩ (3/20) : ℚ) * 0.20))) :=
  (claim_overallWeights_amended _ _ _ _ _ (3/20) rfl).1

/-- Counterexample to C3: for previous = 10 the source threshold is
|10| * 0.01 = 0.1 (the fallback 1 applies only when |previous| = 0), so the
source classifies (10.5, 10) as up, while the threshold max(|previous|*0.01, 1)
stated by the claim would classify it as flat. -/
theorem claim_trendThreshold_cex :
    getTrend (some (21/2)) (some 10) = Trend.up ∧
    specClassifyTrend (some (21/2)) (some 10) = Trend.flat ∧
    Trend.up ≠ Trend.flat := by
  refine ⟨?_, ?_, by decide⟩
  · norm_num [getTrend]
  · norm_num [specClassifyTrend, max_def]

/-- The deadband getTrend actually applies (src/index.ts line 291): 1% of
|previous| when that is positive, the absolute fallback 1 otherwise. -/
def trendThreshold (previous : Option ℚ) : ℚ :=
  if |previous.getD 0| > 0 then |previous.getD 0| * 0.01 else 1

/-- C3 as amended: with null values coerced to 0, the classifier uses
threshold = |previous| * 0.01 when |previous| > 0 and the absolute fallback 1
otherwise (NOT the pointwise maximum of the two), returns up exactly when
latest - previous exceeds the threshold, down exactly when it is below the
negated threshold, and flat otherwise; in particular classifyTrend(102, 100) =
up and classifyTrend(100.5, 100) = flat. -/
theorem claim_trendThreshold_amended (latest previous : Option ℚ) :
    (getTrend latest previous = Trend.up ↔
      latest.getD 0 - previous.getD 0 > trendThreshold previous) ∧
    (getTrend latest previous = Trend.down ↔
      latest.getD 0 - previous.getD 0 < -trendThreshold previous) ∧
    (getTrend latest previous = Trend.flat ↔
      ¬(latest.getD 0 - previous.getD 0 > trendThreshold previous) ∧
      ¬(latest.getD 0 - previous.getD 0 < -trendThreshold previous)) ∧
    getTrend (some 102) (some 100) = Trend.up ∧
    getTrend (some (201/2)) (some 100) = Trend.flat := by
  have heq : getTrend latest previous =
      (if latest.getD 0 - previous.getD 0 > trendThreshold previous then Trend.up
       else if latest.getD 0 - previous.getD 0 < -trendThreshold previous then
         Trend.down
       else Trend.flat) := rfl
  have hpos : 0 < trendThreshold previous := by
    unfold trendThreshold
    split_ifs with h
    · exact mul_pos h (by norm_num)
    · norm_num
  refine ⟨?_, ?_, ?_, ?_, ?_⟩
  · rw [heq]
    by_cases hA : latest.getD 0 - previous.getD 0 > trendThreshold previous <;>
      by_cases hB : latest.getD 0 - previous.getD 0 < -trendThreshold previous <;>
        simp [hA, hB] <;> linarith
  · rw [heq]
    by_cases hA : latest.getD 0 - previous.getD 0 > trendThreshold previous <;>
      by_cases hB : latest.getD 0 - previous.getD 0 < -trendThreshold previous <;>
        simp [hA, hB] <;> linarith
  · rw [heq]
    by_cases hA : latest.getD 0 - previous.getD 0 > trendThreshold previous <;>
      by_cases hB : latest.getD 0 - previous.getD 0 < -trendThreshold previous <;>
        simp [hA, hB] <;> linarith
  · have h100 : |(100 : ℚ)| = 100 := by norm_num
    norm_num [getTrend, h100]
  · have h100 : |(100 : ℚ)| = 100 := by norm_num
    norm_num [getTrend, h100]

/-- Counterexample to C4: with positive capacity (100 MW) and one generation
record reporting 0 MWh, the guard is not taken, yet the source returns the
all-null/zero record because the computed ratio 0 is falsy in JS — the claim
predicts ratio = some 0 and says null occurs only when the potential is ≤ 0. -/
theorem claim_capacityUtilization_cex :
    calculateCapacityUtilization ⟨"CA", "2024-01", 100, 100⟩
        [mkGenerationData "2024-01" (some 0) (some 0)] = ⟨none, 0, 0⟩ ∧
    ¬(([mkGenerationData "2024-01" (some 0) (some 0)] : List GenerationData).length = 0 ∨
        (100 : ℚ) ≤ 0) ∧
    (0 : ℚ) < 100 * totalHoursInMonth ∧
    (none : Option ℚ) ≠
      some (roundTo 4 (totalLatestGenerationMWh
        [mkGenerationData "2024-01" (some 0) (some 0)] / (100 * totalHoursInMonth))) := by
  refine ⟨?_, by norm_num, by norm_num [totalHoursInMonth], by simp⟩
  norm_num [calculateCapacityUtilization, totalLatestGenerationMWh,
    totalLatestConsumptionMWh, latestGenerationData, mkGenerationData,
    totalHoursInMonth, roundTo, jsRound, UtilizationResult.mk.injEq]

/-- C4 as amended: the guard (empty generation list or capacity ≤ 0) returns
the all-null/zero record; otherwise the GWh totals are the latest-period sums
divided by 1000 and rounded to 3 decimals, and the ratio is the latest-period
generation divided by capacity × 30.4375 × 24 rounded to 4 decimals — EXCEPT
that a zero generation total also yields a null ratio (JS falsiness of the
ratio), so null is not confined to a non-positive potential, and the all-null/
zero record can also occur outside the guard. -/
theorem claim_capacityUtilization_amended (cm : RegionalCapacityMetrics)
    (gens : List GenerationData) :
    ((gens.length = 0 ∨ cm.totalSummerCapacityMW ≤ 0) →
      calculateCapacityUtilization cm gens = ⟨none, 0, 0⟩) ∧
    (¬(gens.length = 0 ∨ cm.totalSummerCapacityMW ≤ 0) →
      (calculateCapacityUtilization cm gens).totalGenerationGWh =
          roundTo 3 (totalLatestGenerationMWh gens / 1000) ∧
        (calculateCapacityUtilization cm gens).totalConsumptionGWh =
          roundTo 3 (totalLatestConsumptionMWh gens / 1000) ∧
        (totalLatestGenerationMWh gens = 0 →
          (calculateCapacityUtilization cm gens).utilization = none) ∧
        (totalLatestGenerationMWh gens ≠ 0 →
          (calculateCapacityUtilization cm gens).utilization =
            some (roundTo 4 (totalLatestGenerationMWh gens /
              (cm.totalSummerCapacityMW * totalHoursInMonth))))) := by
  constructor
  · intro h
    unfold calculateCapacityUtilization
    rw [if_pos h]
  · intro h
    have hcap : 0 < cm.totalSummerCapacityMW := by
      push_neg at h
      exact h.2
    have hpot : 0 < cm.totalSummerCapacityMW * totalHoursInMonth :=
      mul_pos hcap (by norm_num [totalHoursInMonth])
    unfold calculateCapacityUtilization
    rw [if_neg h]
    refine ⟨rfl, rfl, ?_, ?_⟩
    · intro hz
      simp [hpot, hz]
    · intro hnz
      have hdiv : totalLatestGenerationMWh gens /
          (cm.totalSummerCapacityMW * totalHoursInMonth) ≠ 0 :=
        div_ne_zero hnz (ne_of_gt hpot)
      simp [hpot, hdiv]

/-- Witness for the amended C4: the guard case on empty input, and a positive
concrete ratio 73050 / (1000 × 730.5). -/
theorem claim_capacityUtilization_amended_witness :
    calculateCapacityUtilization ⟨"TX", "N/A", 0, 0⟩ [] = ⟨none, 0, 0⟩ ∧
    (calculateCapacityUtilization ⟨"CA", "2024-01", 1000, 1000⟩
        [mkGenerationData "2024-01" (some 73050) (some 1000)]).utilization =
      some (roundTo 4 (totalLatestGenerationMWh
          [mkGenerationData "2024-01" (some 73050) (some 1000)] /
        (1000 * totalHoursInMonth))) := by
  constructor
  · exact (claim_capacityUtilization_amended _ _).1 (Or.inl rfl)
  · exact ((claim_capacityUtilization_amended _ _).2 (by norm_num)).2.2.2
      (by norm_num [totalLatestGenerationMWh, latestGenerationData, mkGenerationData])

/-- C5.  For a batch of two regions where fetching fails for exactly one, the
ranker returns exactly one detailed result (for the succeeding region) and
exactly one failed entry (for the failing region, carrying its non-empty error
string); the call is a total function of its inputs (it never throws), every
region is accounted for, and the detailed results are sorted descending by
overall score. -/
theorem claim_rankRegionsPartialFailure (sqrtFn : ℚ → ℚ) (now regA regB : String)
    (includeHourly : Bool) (fetcher : String → Except String FetchedRegionData)
    (dataA : FetchedRegionData) (err : String)
    (hA : fetcher regA = Except.ok dataA) (hcap : dataA.capacityData.length ≠ 0)
    (hB : fetcher regB = Except.error err) (herr : err ≠ "") :
    (rankRegions sqrtFn now [regA, regB] includeHourly fetcher).detailedResults =
      [analyzeStorageOpportunity sqrtFn now regA dataA.capacityData
        (if includeHourly then dataA.demandData else []) dataA.generationData
        dataA.priceData] ∧
    ((rankRegions sqrtFn now [regA, regB] includeHourly fetcher).detailedResults.map
      (fun m => m.region)) = [regA] ∧
    (rankRegions sqrtFn now [regA, regB] includeHourly fetcher).failedRegions =
      [⟨regB, none, some err⟩] ∧
    (∀ f ∈ (rankRegions sqrtFn now [regA, regB] includeHourly fetcher).failedRegions,
      ∃ e, f.error = some e ∧ e ≠ "") ∧
    (rankRegions sqrtFn now [regA, regB] includeHourly fetcher).regionsAnalyzed = 2 ∧
    (rankRegions sqrtFn now [regA, regB] includeHourly fetcher).detailedResults.length +
      (rankRegions sqrtFn now [regA, regB] includeHourly fetcher).failedRegions.length = 2 ∧
    List.Pairwise (fun a b => b.storageOpportunityScore.overall.getD 0 ≤
        a.storageOpportunityScore.overall.getD 0)
      (rankRegions sqrtFn now [regA, regB] includeHourly fetcher).detailedResults := by
  set M := analyzeStorageOpportunity sqrtFn now regA dataA.capacityData
    (if includeHourly then dataA.demandData else []) dataA.generationData
    dataA.priceData with hM
  have hstepA : analyzeRegion sqrtFn now includeHourly fetcher regA =
      ⟨regA, some M, none⟩ := by
    unfold analyzeRegion
    rw [hA]
    simp only [if_neg hcap]
  have hstepB : analyzeRegion sqrtFn now includeHourly fetcher regB =
      ⟨regB, none, some err⟩ := by
    unfold analyzeRegion
    rw [hB]
  have hDetailed : (rankRegions sqrtFn now [regA, regB] includeHourly fetcher).detailedResults
      = [M] := by
    unfold rankRegions
    simp [hstepA, hstepB, sortRanked, insertRanked]
  have hFailed : (rankRegions sqrtFn now [regA, regB] includeHourly fetcher).failedRegions
      = [⟨regB, none, some err⟩] := by
    unfold rankRegions
    simp [hstepA, hstepB]
  have hRegion : M.region = regA := by
    rw [hM]
    unfold analyzeStorageOpportunity
    rfl
  refine ⟨hDetailed, ?_, hFailed, ?_, ?_, ?_, ?_⟩
  · rw [hDetailed]
    simp [hRegion]
  · rw [hFailed]
    intro f hf
    simp only [List.mem_singleton] at hf
    exact ⟨err, by rw [hf], herr⟩
  · unfold rankRegions
    rfl
  · rw [hDetailed, hFailed]
    rfl
  · rw [hDetailed]
    simp

/-- Concrete per-region data bundle for the C5 witness. -/
def bundleW : FetchedRegionData :=
  ⟨[⟨"2023", "AA", "SUN", some 8000, none⟩], [], [], []⟩

/-- Concrete fetcher for the C5 witness: succeeds for "AA", fails for "BB". -/
def fetcherW : String → Except String FetchedRegionData := fun s =>
  if s = "AA" then Except.ok bundleW else Except.error "boom"

/-- Witness for C5 at the concrete two-region batch ["AA", "BB"] with a fetcher
that fails for "BB". -/
theorem claim_rankRegionsPartialFailure_witness :
    (rankRegions sqrtW "2025-01-01" ["AA", "BB"] false fetcherW).detailedResults =
      [analyzeStorageOpportunity sqrtW "2025-01-01" "AA" bundleW.capacityData
        (if false then bundleW.demandData else []) bundleW.generationData
        bundleW.priceData] ∧
    ((rankRegions sqrtW "2025-01-01" ["AA", "BB"] false fetcherW).detailedResults.map
      (fun m => m.region)) = ["AA"] ∧
    (rankRegions sqrtW "2025-01-01" ["AA", "BB"] false fetcherW).failedRegions =
      [⟨"BB", none, some "boom"⟩] ∧
    (∀ f ∈ (rankRegions sqrtW "2025-01-01" ["AA", "BB"] false fetcherW).failedRegions,
      ∃ e, f.error = some e ∧ e ≠ "") ∧
    (rankRegions sqrtW "2025-01-01" ["AA", "BB"] false fetcherW).regionsAnalyzed = 2 ∧
    (rankRegions sqrtW "2025-01-01" ["AA", "BB"] false fetcherW).detailedResults.length +
      (rankRegions sqrtW "2025-01-01" ["AA", "BB"] false fetcherW).failedRegions.length = 2 ∧
    List.Pairwise (fun a b => b.storageOpportunityScore.overall.getD 0 ≤
        a.storageOpportunityScore.overall.getD 0)
      (rankRegions sqrtW "2025-01-01" ["AA", "BB"] false fetcherW).detailedResults :=
  claim_rankRegionsPartialFailure sqrtW "2025-01-01" "AA" "BB" false fetcherW bundleW
    "boom" (by simp [fetcherW]) (by simp [bundleW]) (by simp [fetcherW]) (by decide)

/-- C6.  Whenever fewer than 2 finite numeric values remain in the hourly
demand series, the grid-stability estimator returns exactly the fixed fallback
constants 500 / 4 / 100 / 300 — not zeros and not values computed from the
input. -/
theorem claim_gridStabilityFallback (demandData : List RTODemandData)
    (h : (demandSeries demandData).length < 2) :
    calculateGridStabilityMetrics demandData =
      { maxHourlyRampMW := 500
        rampingFrequency := 4
        frequencyRegulationNeed := 100
        spinningReserveRequirement := 300 } ∧
    calculateGridStabilityMetrics demandData ≠ ⟨0, 0, 0, 0⟩ := by
  have hfb : calculateGridStabilityMetrics demandData = gridStabilityFallback := by
    unfold calculateGridStabilityMetrics
    rw [if_pos h]
  constructor
  · rw [hfb]
    rfl
  · rw [hfb]
    simp [gridStabilityFallback]

/-- Witness for C6 at a series with one null and one finite value (one numeric
value remains, which is fewer than 2). -/
theorem claim_gridStabilityFallback_witness :
    calculateGridStabilityMetrics [mkDemandData "h1" none, mkDemandData "h2" (some 41230)] =
      { maxHourlyRampMW := 500
        rampingFrequency := 4
        frequencyRegulationNeed := 100
        spinningReserveRequirement := 300 } ∧
    calculateGridStabilityMetrics [mkDemandData "h1" none, mkDemandData "h2" (some 41230)] ≠
      ⟨0, 0, 0, 0⟩ :=
  claim_gridStabilityFallback _ (by simp [demandSeries, mkDemandData])

/-- Counterexample to C7: for the price series (1, 1, 0) the arithmetic mean of
the null-coerced prices is 2/3, but the estimator returns toFixed(2) of it,
0.67 ≠ 2/3. -/
theorem claim_economicAverage_cex :
    (calculateEconomicMetrics sqrtW
        [⟨"2024-01", "CA", "ALL", some 1, none⟩, ⟨"2024-02", "CA", "ALL", some 1, none⟩,
         ⟨"2024-03", "CA", "ALL", some 0, none⟩]
        (generationFallbackDS [])).averageRetailPriceCentsPerKWh = 67/100 ∧
    (([⟨"2024-01", "CA", "ALL", some 1, none⟩, ⟨"2024-02", "CA", "ALL", some 1, none⟩,
       ⟨"2024-03", "CA", "ALL", some 0, none⟩] : List RetailPriceData).map
      (fun p => p.price.getD 0)).sum / 3 = (2 : ℚ)/3 ∧
    (67/100 : ℚ) ≠ 2/3 := by
  refine ⟨?_, by norm_num, by norm_num⟩
  norm_num [calculateEconomicMetrics, roundTo, jsRound]

/-- C7 as amended: for every non-empty price series the estimator returns the
arithmetic mean of the null-coerced prices rounded to 2 decimal places
(toFixed(2) then parseFloat), rather than the exact mean. -/
theorem claim_economicAverage_amended (sqrtFn : ℚ → ℚ)
    (priceData : List RetailPriceData) (ds : DemandSupplyMetrics)
    (h : priceData.length ≠ 0) :
    (calculateEconomicMetrics sqrtFn priceData ds).averageRetailPriceCentsPerKWh =
      roundTo 2 ((priceData.map (fun p => p.price.getD 0)).sum /
        (priceData.length : ℚ)) := by
  unfold calculateEconomicMetrics
  rw [if_neg h]
  simp [List.length_map]

/-- Witness for the amended C7 at the concrete series (2, 4): mean 3. -/
theorem claim_economicAverage_amended_witness :
    (calculateEconomicMetrics sqrtW
        [⟨"2024-01", "TX", "ALL", some 2, none⟩, ⟨"2024-02", "TX", "ALL", some 4, none⟩]
        (generationFallbackDS [])).averageRetailPriceCentsPerKWh =
      roundTo 2 ((([⟨"2024-01", "TX", "ALL", some 2, none⟩,
          ⟨"2024-02", "TX", "ALL", some 4, none⟩] : List RetailPriceData).map
        (fun p => p.price.getD 0)).sum / 2) :=
  claim_economicAverage_amended sqrtW _ _ (by simp)

/-- C8 (code bug).  The spec defines coefficientOfVariation as stddev/avg with
the value 0 when avg = 0, and basicStats honours this (and returns all zeros on
empty input); but calculateEconomicMetrics divides priceStdDev by avgPrice with
no zero guard, so for a non-empty price series with zero null-coerced average
(here: the single null-priced record, prices = [0]) the stored
priceVolatilityIndex is the non-finite 0/0 (none), not 0. -/
theorem claim_priceVolatilityGuard (sqrtFn : ℚ → ℚ) (ds : DemandSupplyMetrics) :
    basicStats sqrtFn [] = ⟨0, 0, 0⟩ ∧
    (basicStats sqrtFn [5, -5]).cov = 0 ∧
    (calculateEconomicMetrics sqrtFn [⟨"2024-01", "CA", "ALL", none, none⟩]
      ds).priceVolatilityIndex = none := by
  refine ⟨rfl, ?_, ?_⟩
  · norm_num [basicStats]
  · norm_num [calculateEconomicMetrics]

lemma capTotal_cons (x : CapacityByFuelData) (xs : List CapacityByFuelData) :
    capTotal (x :: xs) = x.netSummerCapacityMW.getD 0 + capTotal xs := by
  simp [capTotal]

lemma capRenewable_cons (x : CapacityByFuelData) (xs : List CapacityByFuelData) :
    capRenewable (x :: xs) =
      (if renewableSources.contains x.energy_source_code then
        x.netSummerCapacityMW.getD 0 else 0) + capRenewable xs := by
  unfold capRenewable
  rw [List.filter_cons]
  by_cases hr : x.energy_source_code ∈ renewableSources
  · simp [hr]
  · simp [hr]

lemma capFossil_cons (x : CapacityByFuelData) (xs : List CapacityByFuelData) :
    capFossil (x :: xs) =
      (if (!renewableSources.contains x.energy_source_code &&
          fossilSources.contains x.energy_source_code) then
        x.netSummerCapacityMW.getD 0 else 0) + capFossil xs := by
  unfold capFossil
  rw [List.filter_cons]
  by_cases hr : x.energy_source_code ∈ renewableSources <;>
    by_cases hf : x.energy_source_code ∈ fossilSources <;>
      simp [hr, hf]

lemma foldl_gridCapacityStep (l : List CapacityByFuelData) (t r f : ℚ) :
    l.foldl gridCapacityStep (t, r, f) =
      (t + capTotal l, r + capRenewable l, f + capFossil l) := by
  induction l generalizing t r f with
  | nil => simp [capTotal, capRenewable, capFossil]
  | cons x xs ih =>
    simp only [List.foldl_cons, gridCapacityStep]
    rw [ih, capTotal_cons, capRenewable_cons, capFossil_cons]
    by_cases hr : x.energy_source_code ∈ renewableSources <;>
      by_cases hf : x.energy_source_code ∈ fossilSources <;>
        simp [hr, hf, Prod.mk.injEq] <;> ring_nf <;> simp [add_comm, add_assoc, add_left_comm]

/-- Characterization of calculateGridCapacityMetrics by the reference sums. -/
lemma calculateGridCapacityMetrics_eq (l : List CapacityByFuelData) :
    calculateGridCapacityMetrics l =
      { totalCapacityMW := jsRound (capTotal l)
        renewableCapacityMW := jsRound (capRenewable l)
        fossilCapacityMW := jsRound (capFossil l)
        renewablePenetration :=
          if capTotal l > 0 then jsRound (capRenewable l / capTotal l * 100)
          else 0 } := by
  unfold calculateGridCapacityMetrics
  rw [foldl_gridCapacityStep]
  simp

lemma ng_not_renewable :
    ¬(("NG" : String) = "SUN" ∨ ("NG" : String) = "WND" ∨ ("NG" : String) = "HYD" ∨
      ("NG" : String) = "GEO" ∨ ("NG" : String) = "BIO" ∨ ("NG" : String) = "WAS") := by
  decide

/-- Counterexample to C9: for records SUN = 1 MW and NG = 2 MW the source
stores Math.round(1/3 × 100) = 33, while the claim's unrounded formula gives
100/3. -/
theorem claim_renewablePenetration_cex :
    (calculateGridCapacityMetrics [⟨"2024-01", "TX", "SUN", some 1, none⟩,
        ⟨"2024-01", "TX", "NG", some 2, none⟩]).renewablePenetration = 33 ∧
    specRenewablePenetration [⟨"2024-01", "TX", "SUN", some 1, none⟩,
        ⟨"2024-01", "TX", "NG", some 2, none⟩] = 100/3 ∧
    ((33 : ℤ) : ℚ) ≠ 100/3 := by
  refine ⟨?_, ?_, by norm_num⟩
  · rw [calculateGridCapacityMetrics_eq]
    norm_num [capTotal, capRenewable, renewableSources, jsRound, List.filter_cons,
      List.filter_nil, List.map_cons, List.map_nil, List.sum_cons, List.sum_nil,
      ng_not_renewable]
  · norm_num [specRenewablePenetration, capTotal, capRenewable, renewableSources,
      List.filter_cons, List.filter_nil, List.map_cons, List.map_nil, List.sum_cons,
      List.sum_nil,
      ng_not_renewable]

/-- C9 as amended: renewable penetration is Math.round of
renewableCapacity / totalCapacity × 100 over the raw (unrounded) sums when the
total is positive and 0 otherwise, with renewable codes {SUN, WND, HYD, GEO,
BIO, WAS} and fossil codes {NG, COL, PET, OTH}; other codes enter the total but
neither bucket; the SUN = 8000 / NG = 12000 scenario yields exactly 40. -/
theorem claim_renewablePenetration_amended (capacityData : List CapacityByFuelData) :
    (calculateGridCapacityMetrics capacityData).renewablePenetration =
      (if capTotal capacityData > 0 then
        jsRound (capRenewable capacityData / capTotal capacityData * 100)
      else 0) ∧
    (calculateGridCapacityMetrics capacityData).totalCapacityMW =
      jsRound (capTotal capacityData) ∧
    (calculateGridCapacityMetrics capacityData).renewableCapacityMW =
      jsRound (capRenewable capacityData) ∧
    (calculateGridCapacityMetrics capacityData).fossilCapacityMW =
      jsRound (capFossil capacityData) ∧
    renewableSources = ["SUN", "WND", "HYD", "GEO", "BIO", "WAS"] ∧
    fossilSources = ["NG", "COL", "PET", "OTH"] ∧
    (calculateGridCapacityMetrics
      [⟨"2024-01", "TX", "SUN", some 8000, none⟩,
       ⟨"2024-01", "TX", "NG", some 12000, none⟩]).renewablePenetration = 40 := by
  refine ⟨?_, ?_, ?_, ?_, rfl, rfl, ?_⟩
  · rw [calculateGridCapacityMetrics_eq]
  · rw [calculateGridCapacityMetrics_eq]
  · rw [calculateGridCapacityMetrics_eq]
  · rw [calculateGridCapacityMetrics_eq]
  · rw [calculateGridCapacityMetrics_eq]
    norm_num [capTotal, capRenewable, renewableSources, jsRound, List.filter_cons,
      List.filter_nil, List.map_cons, List.map_nil, List.sum_cons, List.sum_nil,
      ng_not_renewable]

/-- C10 (implicit).  Whenever the hourly demand series is empty or has no
finite numeric values, the demand-supply metrics are estimated from the
generation records: the rounded mean of the null-coerced generation values
(dividing by max(record count, 1)), that mean × 1.2 and × 0.6 rounded for peak
and minimum, and the fixed placeholder constants loadFactor = 0.7 and
demandVariabilityIndex = 0.15. -/
theorem claim_demandFallback (sqrtFn : ℚ → ℚ) (demandData : List RTODemandData)
    (generationData : List GenerationData)
    (h : demandSeries demandData = []) :
    calculateDemandSupplyMetrics sqrtFn demandData generationData =
      { averageDemandMW := jsRound
          ((generationData.map (fun g => g.generation.getD 0)).sum /
            ((max generationData.length 1 : ℕ) : ℚ))
        peakDemandMW := jsRound
          (((generationData.map (fun g => g.generation.getD 0)).sum /
            ((max generationData.length 1 : ℕ) : ℚ)) * 1.2)
        minimumDemandMW := jsRound
          (((generationData.map (fun g => g.generation.getD 0)).sum /
            ((max generationData.length 1 : ℕ) : ℚ)) * 0.6)
        loadFactor := 0.7
        demandVariabilityIndex := 0.15 } := by
  have hfb : calculateDemandSupplyMetrics sqrtFn demandData generationData =
      generationFallbackDS generationData := by
    unfold calculateDemandSupplyMetrics
    by_cases hd : demandData.length = 0
    · rw [if_pos hd]
    · rw [if_neg hd]
      simp [h]
  have hden : (if generationData.length = 0 then (1 : ℚ)
      else (generationData.length : ℚ)) =
      ((max generationData.length 1 : ℕ) : ℚ) := by
    by_cases hg : generationData.length = 0
    · simp [hg]
    · have h1 : max generationData.length 1 = generationData.length :=
        Nat.max_eq_left (Nat.one_le_iff_ne_zero.mpr hg)
      simp [hg, h1]
  rw [hfb]
  unfold generationFallbackDS
  rw [hden]

/-- Witness for C10: demand series with a single null value, two generation
records of 30 and 40 MWh: mean 35, peak estimate 42, minimum estimate 21. -/
theorem claim_demandFallback_witness :
    calculateDemandSupplyMetrics sqrtW [mkDemandData "h1" none]
        [mkGenerationData "p" (some 30) none, mkGenerationData "p" (some 40) none] =
      ⟨35, 42, 21, 0.7, 0.15⟩ := by
  have h := claim_demandFallback sqrtW [mkDemandData "h1" none]
      [mkGenerationData "p" (some 30) none, mkGenerationData "p" (some 40) none]
      (by simp [demandSeries, mkDemandData])
  rw [h]
  norm_num [jsRound, mkGenerationData, DemandSupplyMetrics.mk.injEq]
